import Mathlib

/-!
Verification of the memeroute PCB autorouter core against its specification.

The geometry kernel, router driver and DSN converter are shallowly embedded.
Rust `f64` values are idealised as exact rationals `ℚ` (Euclidean lengths,
which require square roots, are idealised as reals `ℝ`); the `approx` crate's
`relative_eq!(a, b, epsilon = EP)` comparison is idealised as the absolute
comparison `|a - b| ≤ EP` (the relative branch of `relative_eq!` uses
`f64::EPSILON ≈ 2.2e-16` as its factor, which is negligible against
`EP = 1e-6` for the magnitudes the kernel handles).

Definitions are translated from the repository sources
(`src/model/geom/{math,intersects,distance}.rs`, `src/model/primitive/shape.rs`,
`src/route/router.rs`, `src/dsn/convert.rs`).  Helper functions and data types
that the sources import from modules not present in the repository snapshot
(`model/primitive/*`, the newer `model/geom/math.rs` helpers `le`, `lt`, `ne`,
`orientation`, `pts_same_side`, and `model/pcb.rs`) are modelled from the
specification's words; each such definition is marked `Modelled from the spec`.
-/

namespace Memeroute

/-! ### Scalar ε-comparisons (src/model/geom/math.rs) -/

/-- `EP` from src/model/geom/math.rs: the shared tolerance ε = 1e-6. -/
def EP : ℚ := 1 / 1000000

/-- `f64_eq` from src/model/geom/math.rs: ε-equality of two scalars,
idealising `relative_eq!(a, b, epsilon = EP)` as `|a - b| ≤ EP`. -/
def f64_eq (a b : ℚ) : Prop := a - b ≤ EP ∧ b - a ≤ EP

/-- `f64_ne` from src/model/geom/math.rs: negation of ε-equality. -/
def f64_ne (a b : ℚ) : Prop := ¬f64_eq a b

/-- `f64_gt` from src/model/geom/math.rs: `f64_ne(a, b) && a > b`. -/
def f64_gt (a b : ℚ) : Prop := f64_ne a b ∧ b < a

/-- `f64_ge` from src/model/geom/math.rs: `f64_eq(a, b) || a > b`. -/
def f64_ge (a b : ℚ) : Prop := f64_eq a b ∨ b < a

/-- Modelled from the spec: the `lt` wrapper imported by
src/model/geom/intersects.rs is missing from the snapshot's math.rs; per the
spec's numeric policy ("use `<`, `>`, `=` wrappers that compare with ε") it
mirrors `f64_gt`: `f64_ne(a, b) && a < b`. -/
def f64_lt (a b : ℚ) : Prop := f64_ne a b ∧ a < b

/-- Modelled from the spec: the `le` wrapper, mirroring `f64_ge`:
`f64_eq(a, b) || a < b`. -/
def f64_le (a b : ℚ) : Prop := f64_eq a b ∨ a < b

instance (a b : ℚ) : Decidable (f64_eq a b) := show Decidable (_ ∧ _) from inferInstance
instance (a b : ℚ) : Decidable (f64_ne a b) := show Decidable (¬_) from inferInstance
instance (a b : ℚ) : Decidable (f64_gt a b) := show Decidable (_ ∧ _) from inferInstance
instance (a b : ℚ) : Decidable (f64_ge a b) := show Decidable (_ ∨ _) from inferInstance
instance (a b : ℚ) : Decidable (f64_lt a b) := show Decidable (_ ∧ _) from inferInstance
instance (a b : ℚ) : Decidable (f64_le a b) := show Decidable (_ ∨ _) from inferInstance

/-! ### Points, lines, segments (model/primitive, modelled from the spec §3) -/

/-- Modelled from the spec: "Point. Pair of 64-bit floats (x, y)."
(`model/primitive/point.rs` is not in the snapshot.) -/
structure Pt where
  x : ℚ
  y : ℚ
  deriving DecidableEq

instance : Neg Pt := ⟨fun p => ⟨-p.x, -p.y⟩⟩
instance : Sub Pt := ⟨fun a b => ⟨a.x - b.x, a.y - b.y⟩⟩

@[simp] theorem Pt.neg_x (p : Pt) : (-p).x = -p.x := rfl
@[simp] theorem Pt.neg_y (p : Pt) : (-p).y = -p.y := rfl
@[simp] theorem Pt.sub_x (a b : Pt) : (a - b).x = a.x - b.x := rfl
@[simp] theorem Pt.sub_y (a b : Pt) : (a - b).y = a.y - b.y := rfl

/-- `Pt::cross`: the 2D cross product `a.x * b.y - a.y * b.x`. -/
def Pt.cross (a b : Pt) : ℚ := a.x * b.y - a.y * b.x

/-- Modelled from the spec: "Line(point, direction) — infinite; used only as
a supporting primitive" (`model/primitive/line_shape.rs` is not in the
snapshot). -/
structure Line where
  p : Pt
  dir : Pt
  deriving DecidableEq

/-- The `line(a, b)` constructor used by src/model/geom/intersects.rs:
the infinite line through `a` and `b`. -/
def line (a b : Pt) : Line := ⟨a, b - a⟩

/-- Modelled from the spec: "Segment(start, end) — zero-width". -/
structure Segment where
  st : Pt
  en : Pt
  deriving DecidableEq

/-- The `seg(a, b)` constructor. -/
def seg (a b : Pt) : Segment := ⟨a, b⟩

/-- `Segment::line()`: the supporting line of a segment. -/
def Segment.line (s : Segment) : Line := Memeroute.line s.st s.en

/-! ### Axis-aligned rectangles (model/primitive/rect.rs, modelled) -/

/-- Modelled from the spec: "Rectangle(min, max) — axis-aligned"
(`model/primitive/rect.rs` is not in the snapshot); stored as the min corner
`(x0, y0)` and the max corner `(x1, y1)`. -/
structure Rt where
  x0 : ℚ
  y0 : ℚ
  x1 : ℚ
  y1 : ℚ
  deriving DecidableEq

/-- `Rt::enclosing(a, b)`: the smallest axis-aligned rectangle containing the
two points, used by `seg_intersects_seg` for collinear handling. -/
def Rt.enclosing (a b : Pt) : Rt :=
  ⟨min a.x b.x, min a.y b.y, max a.x b.x, max a.y b.y⟩

/-- `Rt::contains(p)`: point-in-rectangle, with the spec's ε-comparisons. -/
def Rt.containsPt (r : Rt) (p : Pt) : Prop :=
  f64_le r.x0 p.x ∧ f64_le p.x r.x1 ∧ f64_le r.y0 p.y ∧ f64_le p.y r.y1

/-- `Rt::pts()`: the four corners, in the order bottom-left, top-left,
top-right, bottom-right (consecutive entries are joined by edges, as consumed
by `rt_intersects_tri`). -/
def Rt.pts (r : Rt) : List Pt :=
  [⟨r.x0, r.y0⟩, ⟨r.x0, r.y1⟩, ⟨r.x1, r.y1⟩, ⟨r.x1, r.y0⟩]

/-! ### Orientation (modelled from the spec §4.A numeric policy) -/

/-- The ε-sign of a scalar: 0 inside the tolerance band, else ±1.
Modelled from the spec: "Orientation sign is {−1, 0, +1}; 0 branch triggers
collinear handling." -/
def sgnEps (c : ℚ) : ℤ :=
  if f64_eq c 0 then 0 else if 0 < c then 1 else -1

/-- Modelled from the spec: `orientation(l, p)`, imported by
src/model/geom/intersects.rs from the newer math.rs (not in the snapshot):
the ε-sign of the cross product of the line's direction with the vector from
the line's base point to `p`. -/
def orientation (l : Line) (p : Pt) : ℤ := sgnEps (l.dir.cross (p - l.p))

/-! ### Triangles and rect–triangle separating-axis test -/

/-- Modelled from the spec: "Triangle(3 points)"
(`model/primitive/triangle.rs` is not in the snapshot). -/
structure Tri where
  a : Pt
  b : Pt
  c : Pt
  deriving DecidableEq

/-- `Tri::pts()`: the three vertices. -/
def Tri.pts (t : Tri) : List Pt := [t.a, t.b, t.c]

/-- Modelled from the spec: `pts_same_side(l, pts)`, imported by
src/model/geom/intersects.rs from the newer math.rs (not in the snapshot):
true iff all the points lie strictly (beyond the ε band) on one common side
of the line — the per-axis test of the spec's "separating-axis test on the
seven edge normals". -/
def pts_same_side (l : Line) (pts : List Pt) : Prop :=
  (∀ p ∈ pts, orientation l p = 1) ∨ (∀ p ∈ pts, orientation l p = -1)

/-- `rt_intersects_tri` from src/model/geom/intersects.rs lines 59–86:
returns false as soon as one of the three triangle edge lines has all four
rectangle corners strictly on one side, or one of the four rectangle edge
lines (corners in the order of `Rt.pts`) has all three triangle vertices
strictly on one side; returns true otherwise. -/
def rt_intersects_tri (a : Rt) (b : Tri) : Prop :=
  ¬pts_same_side (line b.a b.b) a.pts ∧
  ¬pts_same_side (line b.b b.c) a.pts ∧
  ¬pts_same_side (line b.c b.a) a.pts ∧
  ¬pts_same_side (line ⟨a.x0, a.y0⟩ ⟨a.x0, a.y1⟩) b.pts ∧
  ¬pts_same_side (line ⟨a.x0, a.y1⟩ ⟨a.x1, a.y1⟩) b.pts ∧
  ¬pts_same_side (line ⟨a.x1, a.y1⟩ ⟨a.x1, a.y0⟩) b.pts ∧
  ¬pts_same_side (line ⟨a.x1, a.y0⟩ ⟨a.x0, a.y0⟩) b.pts

/-- Reference (exact, tolerance-free) point-in-rectangle, for comparison with
the code's predicates. -/
def Rt.memRef (r : Rt) (p : Pt) : Prop :=
  r.x0 ≤ p.x ∧ p.x ≤ r.x1 ∧ r.y0 ≤ p.y ∧ p.y ≤ r.y1

/-- Reference (exact) point-in-triangle: the point is a convex (barycentric)
combination of the three vertices. -/
def Tri.memRef (t : Tri) (p : Pt) : Prop :=
  ∃ u v w : ℚ, 0 ≤ u ∧ 0 ≤ v ∧ 0 ≤ w ∧ u + v + w = 1 ∧
    p.x = u * t.a.x + v * t.b.x + w * t.c.x ∧
    p.y = u * t.a.y + v * t.b.y + w * t.c.y

/-- Reference definition of rectangle–triangle intersection: the two shapes
share a point. -/
def rtTriIntersectsRef (a : Rt) (b : Tri) : Prop :=
  ∃ p : Pt, a.memRef p ∧ b.memRef p

/-! ### seg_intersects_seg (src/model/geom/intersects.rs lines 92–119) -/

/-- `seg_intersects_seg` from src/model/geom/intersects.rs: orientation tests
of each segment's endpoints against the other's supporting line; a collinear
endpoint intersects if it lies in the other segment's enclosing rectangle.
The source's early-return chain is written as the equivalent disjunction. -/
def seg_intersects_seg (a b : Segment) : Prop :=
  (orientation b.line a.st ≠ orientation b.line a.en ∧
    orientation a.line b.st ≠ orientation a.line b.en) ∨
  (orientation b.line a.st = 0 ∧ (Rt.enclosing b.st b.en).containsPt a.st) ∨
  (orientation b.line a.en = 0 ∧ (Rt.enclosing b.st b.en).containsPt a.en) ∨
  (orientation a.line b.st = 0 ∧ (Rt.enclosing a.st a.en).containsPt b.st) ∨
  (orientation a.line b.en = 0 ∧ (Rt.enclosing a.st a.en).containsPt b.en)

/-! ### line_intersects_line (src/model/geom/intersects.rs lines 27–30) -/

/-- `line_intersects_line` from src/model/geom/intersects.rs: two infinite
lines intersect iff they are not parallel, i.e. `ne(a.dir().cross(b.dir()), 0.0)`. -/
def line_intersects_line (a b : Line) : Prop :=
  f64_ne (a.dir.cross b.dir) 0

/-! ### Euclidean distance (model/primitive/point.rs, modelled)

`Pt::dist` computes a Euclidean length with `f64::sqrt`; it is idealised as
the real square root, so the distance-valued functions below take values
in `ℝ`. -/

/-- `Pt::dist(b)`: Euclidean distance between two points (modelled; the
`f64` square root is idealised as `Real.sqrt`). -/
noncomputable def Pt.dist (a b : Pt) : ℝ :=
  Real.sqrt (((a.x - b.x : ℚ) : ℝ) ^ 2 + ((a.y - b.y : ℚ) : ℝ) ^ 2)

/-- `Pt::clamp(r)`: the point projected onto (clamped into) the rectangle,
componentwise. Modelled from the code comment in
src/model/geom/distance.rs: "Project circle centre onto the rectangle". -/
def Pt.clamp (p : Pt) (r : Rt) : Pt :=
  ⟨min (max p.x r.x0) r.x1, min (max p.y r.y0) r.y1⟩

/-- Modelled from the spec: "Circle(center, radius)". -/
structure Circle where
  p : Pt
  r : ℚ
  deriving DecidableEq

/-- `circ_rt_dist` from src/model/geom/distance.rs lines 37–43: distance from
the circle to the boundary of the rectangle, computed by projecting the
circle centre onto the rectangle and subtracting the radius.  The source
comment warns: "Doesn't work if the point is inside the rectangle." -/
noncomputable def circ_rt_dist (a : Circle) (b : Rt) : ℝ :=
  (a.p.clamp b).dist a.p - (a.r : ℚ)

/-- ε-inequality on reals, the `lt` wrapper applied to a computed distance
(idealised like `f64_lt`). -/
def realLt (a b : ℝ) : Prop := ¬(a - b ≤ (EP : ℚ) ∧ b - a ≤ (EP : ℚ)) ∧ a < b

/-- `circ_intersect_rt` from src/model/geom/intersects.rs lines 21–25: the
circle centre is contained in the rect, or the distance from the boundary of
the rect to the circle is less than 0. -/
noncomputable def circ_intersect_rt (a : Circle) (b : Rt) : Prop :=
  b.containsPt a.p ∨ realLt (circ_rt_dist a b) 0

/-! ### Polygons and the Shape dispatch table -/

/-- Modelled from the spec: "Path(vertex sequence, width) — an open polyline
expanded into a sequence of abutting capsules"; `r` is the capsule radius
used by `Path::r()`. -/
structure Path where
  pts : List Pt
  r : ℚ
  deriving DecidableEq

/-- Modelled from the spec: "Polygon(vertex sequence, closed, simple;
pre-triangulated on construction)" — the triangulation computed at
construction is carried as data. -/
structure Polygon where
  pts : List Pt
  tris : List Tri
  deriving DecidableEq

/-- `Polygon::tri()`: the stored triangulation. -/
def Polygon.tri (p : Polygon) : List Tri := p.tris

instance (l : Line) (pts : List Pt) : Decidable (pts_same_side l pts) :=
  show Decidable (_ ∨ _) from inferInstance

instance (a : Rt) (b : Tri) : Decidable (rt_intersects_tri a b) :=
  show Decidable (_ ∧ _) from inferInstance

/-- `poly_intersects_rt` from src/model/geom/intersects.rs lines 46–53: the
rectangle intersects the polygon iff it intersects one of the polygon's
triangles. -/
def poly_intersects_rt (a : Polygon) (b : Rt) : Prop :=
  ∃ t ∈ a.tri, rt_intersects_tri b t

instance (a : Polygon) (b : Rt) : Decidable (poly_intersects_rt a b) :=
  show Decidable (∃ _ ∈ _, _) from inferInstance

/-- Modelled from the spec: `rt_intersects_polygon`, imported by
src/model/primitive/shape.rs but absent from the snapshot's intersects.rs —
`poly_intersects_rt` with the arguments flipped. -/
def rt_intersects_polygon (a : Rt) (b : Polygon) : Prop := poly_intersects_rt b a

instance (a : Rt) (b : Polygon) : Decidable (rt_intersects_polygon a b) :=
  inferInstanceAs (Decidable (poly_intersects_rt b a))

/-- `rt_path_dist` from src/model/geom/distance.rs lines 72–74: the body is
`todo!()`, i.e. it panics on every input; no defined result (`none`). -/
def rt_path_dist (_ : Rt) (_ : Path) : Option ℝ := none

/-- `line_intersects_seg` from src/model/geom/intersects.rs lines 32–34:
`todo!()` — panics on every input. -/
def line_intersects_seg (_ : Line) (_ : Segment) : Option Bool := none

/-- `rt_intersects_seg` from src/model/geom/intersects.rs lines 88–90:
`todo!()` — panics on every input. -/
def rt_intersects_seg (_ : Rt) (_ : Segment) : Option Bool := none

/-- The `Shape` enum from src/model/primitive/shape.rs. -/
inductive Shape where
  | circle (c : Circle)
  | line (l : Line)
  | path (p : Path)
  | point (p : Pt)
  | polygon (p : Polygon)
  | rect (r : Rt)
  | segment (s : Segment)
  | tri (t : Tri)
  deriving DecidableEq

/-- `Shape::intersects` from src/model/primitive/shape.rs lines 27–94: of the
64 pairs in the dispatch table, only (Polygon, Rect) and (Rect, Polygon) are
implemented (via `rt_intersects_polygon`); every other arm is `todo!()` and
panics, modelled as `none`. -/
def Shape.intersects : Shape → Shape → Option Bool
  | .polygon a, .rect b => some (decide (rt_intersects_polygon b a))
  | .rect a, .polygon b => some (decide (rt_intersects_polygon a b))
  | _, _ => none

/-! ### Router result model (src/route/router.rs) -/

/-- Modelled from the spec: `crate::name::Id`, the stable ordered identifier
of nets (and other named objects); modelled as a natural number. -/
abbrev Id : Type := ℕ

/-- Modelled from the spec: "Wire. Layer + path (polyline with width) +
owning net id" (`model/pcb.rs` is not in the snapshot). -/
structure Wire where
  layer : ℕ
  path : Path
  net : ℕ
  deriving DecidableEq

/-- Modelled from the spec: "Via. Position + padstack (defines which layers
it bridges) + owning net id". -/
structure Via where
  p : Pt
  padstack : String
  net : ℕ
  deriving DecidableEq

/-- Modelled from the spec: "PinRef(componentId, pinId)". -/
structure PinRef where
  component : String
  pin : String
  deriving DecidableEq

/-- Modelled from the spec: "Net. Stable id + ordered list of
PinRef(componentId, pinId)" (`model/pcb.rs` is not in the snapshot). -/
structure Net where
  id : Id
  pins : List PinRef := []
  deriving DecidableEq

/-- Modelled from the spec (§3 PCB): the board snapshot as consumed by the
router; only the net list is relevant to the verified claims. -/
structure Pcb where
  nets : List Net := []
  deriving DecidableEq

/-- `Router::rand_net_order` from src/route/router.rs lines 72–77: collects
the ids of the board's nets and sorts them ascending (`sort_unstable`); the
`shuffle` call is commented out in the source, so no randomness is used. -/
def rand_net_order (pcb : Pcb) : List Id :=
  List.insertionSort (· ≤ ·) (pcb.nets.map Net.id)

/-- `RouteResult` from src/route/router.rs lines 37–44; `#[derive(Default)]`
gives empty lists and `failed = false`. -/
structure RouteResult where
  wires : List Wire := []
  vias : List Via := []
  debug_rts : List Rt := []
  failed : Bool := false
  deriving DecidableEq

/-- The `Default` value of `RouteResult`. -/
def emptyRouteResult : RouteResult := {}

/-- `RouteResult::merge` from src/route/router.rs lines 46–53: extend the
three lists and OR the `failed` flags (written as a pure function of the
receiver and argument). -/
def RouteResult.merge (s r : RouteResult) : RouteResult :=
  { wires := s.wires ++ r.wires
    vias := s.vias ++ r.vias
    debug_rts := s.debug_rts ++ r.debug_rts
    failed := s.failed || r.failed }

/-- The cost computed inside `Router::fitness` (src/route/router.rs lines
209–218) from the routed result: 1000 if the `failed` flag is set, plus 10
per via.  Wire length is not counted (the source has
`// TODO: Count wire lengths`). -/
def routeCost (res : RouteResult) : ℚ :=
  (if res.failed then 1000 else 0) + (res.vias.length : ℚ) * 10

/-- `Router::fitness`, as a function of the `RouteResult` produced for the
evaluated permutation: `1 / (1 + cost)`. -/
def fitness (res : RouteResult) : ℚ := 1 / (1 + routeCost res)

/-- Modelled from the spec: the "total wire length" of a result — the sum
over wires of the polyline length of the wire's path (the source does not
compute it; this is the spec's quantity `K_len · (total wire length)`
without the weight). -/
noncomputable def polylineLen : List Pt → ℝ
  | p :: q :: rest => p.dist q + polylineLen (q :: rest)
  | _ => 0

/-- Total wire length of a `RouteResult` (see `polylineLen`). -/
noncomputable def totalWireLen (res : RouteResult) : ℝ :=
  (res.wires.map (fun w => polylineLen w.path.pts)).sum

/-- The four endpoint-orientation permutations checked by
`test_seg_seg_permutations` in src/model/geom/intersects.rs: `(a, b)`,
`(b, a)`, and both with each segment's endpoints reversed; each must agree
with the expected result `res`. -/
def segSegAllPerms (a b : Segment) (res : Prop) : Prop :=
  (seg_intersects_seg a b ↔ res) ∧ (seg_intersects_seg b a ↔ res) ∧
  (seg_intersects_seg (seg a.en a.st) (seg b.en b.st) ↔ res) ∧
  (seg_intersects_seg (seg b.en b.st) (seg a.en a.st) ↔ res)

namespace Dsn

/-! ### DSN board conversion (src/dsn/convert.rs)

The DSN input types (`src/dsn/types.rs`) and the target board model
(`src/model/pcb.rs`) are not in the snapshot; they are modelled from the
spec (§3 data model, §6 external interfaces) with exactly the fields the
converter touches.  `rust_decimal::Decimal` is idealised as an exact
rational. -/

abbrev Decimal := ℚ

/-- `DsnDimensionUnit`. -/
inductive DimensionUnit where
  | inch | mil | cm | mm | um
  deriving DecidableEq

/-- Modelled from the spec: a DSN resolution — dimension unit and integer
amount ("resolution scale (integer)"). -/
structure Resolution where
  dimension : DimensionUnit
  amount : ℕ
  deriving DecidableEq

/-- Modelled from the spec: the DSN unit declaration (only its dimension is
consulted by the converter). -/
structure UnitDecl where
  dimension : DimensionUnit
  deriving DecidableEq

structure PtF where
  x : Decimal
  y : Decimal
  deriving DecidableEq

structure RectData where
  x : Decimal
  y : Decimal
  w : Decimal
  h : Decimal
  deriving DecidableEq

structure DsnRect where
  layer_id : String
  rect : RectData
  deriving DecidableEq

structure DsnCircle where
  layer_id : String
  diameter : Decimal
  p : PtF
  deriving DecidableEq

structure DsnPolygon where
  layer_id : String
  aperture_width : Decimal
  pts : List PtF
  deriving DecidableEq

structure DsnPath where
  layer_id : String
  aperture_width : Decimal
  pts : List PtF
  deriving DecidableEq

structure DsnQArc where
  layer_id : String
  aperture_width : Decimal
  start : PtF
  end_ : PtF
  center : PtF
  deriving DecidableEq

inductive DsnShape where
  | rect (v : DsnRect)
  | circle (v : DsnCircle)
  | polygon (v : DsnPolygon)
  | path (v : DsnPath)
  | qarc (v : DsnQArc)
  deriving DecidableEq

/-- One entry of a padstack's shape list (the converter reads `s.shape`). -/
structure DsnPadstackShape where
  shape : DsnShape
  deriving DecidableEq

structure DsnPadstack where
  padstack_id : String
  shapes : List DsnPadstackShape := []
  attach : Bool := false
  deriving DecidableEq

/-- Modelled from the spec: a DSN image (component prototype); the converter
snapshot reads only its id (`Converter::image` ignores the argument). -/
structure DsnImage where
  image_id : String
  deriving DecidableEq

inductive DsnKeepoutType where
  | keepout | viaKeepout | wireKeepout
  deriving DecidableEq

structure DsnKeepout where
  keepout_type : DsnKeepoutType
  shape : DsnShape
  deriving DecidableEq

structure DsnLibrary where
  padstacks : List DsnPadstack := []
  images : List DsnImage := []
  deriving DecidableEq

structure DsnLayer where
  layer_name : String
  deriving DecidableEq

structure DsnStructure where
  layers : List DsnLayer := []
  boundaries : List DsnShape := []
  keepouts : List DsnKeepout := []
  vias : List String := []
  deriving DecidableEq

/-- Modelled from the spec: a component placement; `Converter::component` is
`todo!()`, so no field is ever read. -/
structure DsnComponent where
  image_id : String
  deriving DecidableEq

structure DsnPlacement where
  components : List DsnComponent := []
  deriving DecidableEq

structure DsnPinRef where
  component_id : String
  pin_id : String
  deriving DecidableEq

structure DsnNet where
  net_id : String
  pins : List DsnPinRef := []
  deriving DecidableEq

structure DsnNetwork where
  nets : List DsnNet := []
  deriving DecidableEq

structure DsnPcb where
  pcb_id : String := ""
  resolution : Resolution
  unit : UnitDecl
  library : DsnLibrary := {}
  structure_ : DsnStructure := {}
  placement : DsnPlacement := {}
  network : DsnNetwork := {}
  deriving DecidableEq

/-! Target board model (`src/model/pcb.rs`, modelled from the spec): integer
internal coordinates produced by the resolution scaling. -/

structure IPt where
  x : ℤ
  y : ℤ
  deriving DecidableEq

structure IRt where
  x : ℤ
  y : ℤ
  w : ℤ
  h : ℤ
  deriving DecidableEq

structure ICircle where
  r : ℕ
  p : IPt
  deriving DecidableEq

structure IPolygon where
  width : ℕ
  pts : List IPt
  deriving DecidableEq

structure IPath where
  width : ℕ
  pts : List IPt
  deriving DecidableEq

structure IArc where
  width : ℕ
  start : IPt
  end_ : IPt
  center : IPt
  deriving DecidableEq

inductive ShapeType where
  | rect (v : IRt)
  | circle (v : ICircle)
  | polygon (v : IPolygon)
  | path (v : IPath)
  | arc (v : IArc)
  deriving DecidableEq

structure Shape where
  layer : String
  shape : ShapeType
  deriving DecidableEq

inductive KeepoutType where
  | keepout | viaKeepout | wireKeepout
  deriving DecidableEq

structure Keepout where
  kind : KeepoutType
  shape : Shape
  deriving DecidableEq

structure Padstack where
  id : String
  shapes : List Shape
  attach : Bool
  deriving DecidableEq

/-- Modelled from the spec: a board component; `Converter::image` constructs
only `Component::default()`, so no fields are modelled. -/
structure Component where
  deriving DecidableEq

structure PinRef where
  component : String
  pin : String
  deriving DecidableEq

structure Net where
  id : String
  pins : List PinRef
  deriving DecidableEq

structure Layer where
  name : String
  deriving DecidableEq

/-- The converted board (append-only construction by the converter). -/
structure Pcb where
  id : String := ""
  resolution : ℚ := 1
  layers : List Layer := []
  boundaries : List Shape := []
  keepouts : List Keepout := []
  via_padstacks : List Padstack := []
  components : List Component := []
  nets : List Net := []
  deriving DecidableEq

def Pcb.set_id (p : Pcb) (s : String) : Pcb := { p with id := s }
def Pcb.set_resolution (p : Pcb) (r : ℚ) : Pcb := { p with resolution := r }
def Pcb.add_layer (p : Pcb) (l : Layer) : Pcb := { p with layers := p.layers ++ [l] }
def Pcb.add_boundary (p : Pcb) (s : Shape) : Pcb := { p with boundaries := p.boundaries ++ [s] }
def Pcb.add_keepout (p : Pcb) (k : Keepout) : Pcb := { p with keepouts := p.keepouts ++ [k] }
def Pcb.add_via_padstack (p : Pcb) (ps : Padstack) : Pcb :=
  { p with via_padstacks := p.via_padstacks ++ [ps] }
def Pcb.add_component (p : Pcb) (c : Component) : Pcb :=
  { p with components := p.components ++ [c] }
def Pcb.add_net (p : Pcb) (n : Net) : Pcb := { p with nets := p.nets ++ [n] }

/-- Conversion failures.  `Result::Err` values from the source are the
non-`panicTodo` constructors; `panicTodo` models the `todo!()` panic in
`Converter::component`. -/
inductive ConvErr where
  | unitMismatch
  | unrepresentable
  | dupPadstack (id : String)
  | dupImage (id : String)
  | unknownPadstack (id : String)
  | panicTodo
  deriving DecidableEq

/-- `Converter` from src/dsn/convert.rs lines 18–24. -/
structure Converter where
  dsn : DsnPcb
  pcb : Pcb := {}
  padstacks : List (String × Padstack) := []
  images : List (String × Component) := []

/-- `Converter::new`. -/
def Converter.new (dsn : DsnPcb) : Converter := { dsn := dsn }

/-- `Converter::mm`: millimetres per declared dimension unit. -/
def mmFactor : DimensionUnit → ℚ
  | .inch => 254 / 10
  | .mil => 254 / 10000
  | .cm => 10
  | .mm => 1
  | .um => 1000

def Converter.mm (c : Converter) : ℚ := mmFactor c.dsn.resolution.dimension

/-- `Converter::coord`: `mm * resolution.amount * v`. -/
def Converter.coord (c : Converter) (v : Decimal) : ℚ :=
  c.mm * (c.dsn.resolution.amount : ℚ) * v

/-- `Converter::resolution`: `mm / resolution.amount`. -/
def Converter.resolutionQ (c : Converter) : ℚ :=
  c.mm / (c.dsn.resolution.amount : ℚ)

/-- Truncation of a rational toward zero (the integer conversion of
`rust_decimal`'s `ToPrimitive`). -/
def qTrunc (q : ℚ) : ℤ := q.num / (q.den : ℤ)

/-- `Converter::i64`: the scaled coordinate as an `i64`, or an error when it
is unrepresentable. -/
def Converter.i64 (c : Converter) (v : Decimal) : Except ConvErr ℤ :=
  let t := qTrunc (c.coord v)
  if -(2 ^ 63) ≤ t ∧ t < 2 ^ 63 then .ok t else .error .unrepresentable

/-- `Converter::u64`: the scaled coordinate as a `u64`, or an error. -/
def Converter.u64 (c : Converter) (v : Decimal) : Except ConvErr ℕ :=
  let t := qTrunc (c.coord v)
  if 0 ≤ t ∧ t < 2 ^ 64 then .ok t.toNat else .error .unrepresentable

/-- `Converter::rect`. -/
def Converter.rectConv (c : Converter) (v : DsnRect) : Except ConvErr IRt := do
  let x ← c.i64 v.rect.x
  let y ← c.i64 v.rect.y
  let w ← c.i64 v.rect.w
  let h ← c.i64 v.rect.h
  pure ⟨x, y, w, h⟩

/-- `Converter::pt`. -/
def Converter.ptConv (c : Converter) (v : PtF) : Except ConvErr IPt := do
  let x ← c.i64 v.x
  let y ← c.i64 v.y
  pure ⟨x, y⟩

/-- `Converter::shape` from src/dsn/convert.rs lines 75–111. -/
def Converter.shapeConv (c : Converter) (v : DsnShape) : Except ConvErr Shape :=
  match v with
  | .rect v => do
      let r ← c.rectConv v
      pure ⟨v.layer_id, .rect r⟩
  | .circle v => do
      let r ← c.u64 (v.diameter / 2)
      let p ← c.ptConv v.p
      pure ⟨v.layer_id, .circle ⟨r, p⟩⟩
  | .polygon v => do
      let w ← c.u64 v.aperture_width
      let pts ← v.pts.mapM c.ptConv
      pure ⟨v.layer_id, .polygon ⟨w, pts⟩⟩
  | .path v => do
      let w ← c.u64 v.aperture_width
      let pts ← v.pts.mapM c.ptConv
      pure ⟨v.layer_id, .path ⟨w, pts⟩⟩
  | .qarc v => do
      let w ← c.u64 v.aperture_width
      let s ← c.ptConv v.start
      let e ← c.ptConv v.end_
      let ct ← c.ptConv v.center
      pure ⟨v.layer_id, .arc ⟨w, s, e, ct⟩⟩

/-- `Converter::keepout`. -/
def Converter.keepoutConv (c : Converter) (v : DsnKeepout) : Except ConvErr Keepout := do
  let s ← c.shapeConv v.shape
  pure ⟨match v.keepout_type with
        | .keepout => .keepout
        | .viaKeepout => .viaKeepout
        | .wireKeepout => .wireKeepout, s⟩

/-- `Converter::padstack`. -/
def Converter.padstackConv (c : Converter) (v : DsnPadstack) : Except ConvErr Padstack := do
  let shapes ← v.shapes.mapM (fun s => c.shapeConv s.shape)
  pure ⟨v.padstack_id, shapes, v.attach⟩

/-- `Converter::image`: always `Ok(Component::default())`. -/
def Converter.imageConv (_ : Converter) (_ : DsnImage) : Except ConvErr Component :=
  .ok ⟨⟩

/-- `Converter::component`: `todo!()` — panics on every input. -/
def Converter.componentConv (_ : Converter) (_ : DsnComponent) : Except ConvErr Component :=
  .error .panicTodo

/-- `Converter::net`: infallible. -/
def Converter.netConv (_ : Converter) (v : DsnNet) : Net :=
  ⟨v.net_id, v.pins.map (fun p => ⟨p.component_id, p.pin_id⟩)⟩

/-- `Converter::convert_padstacks` from src/dsn/convert.rs lines 151–158:
convert each padstack in order, inserting it by id; an insert that finds an
existing entry is a duplicate and fails the conversion. -/
def convertPadstacksAux (c : Converter) :
    List DsnPadstack → List (String × Padstack) →
      Except ConvErr (List (String × Padstack))
  | [], acc => .ok acc
  | v :: rest, acc =>
    match c.padstackConv v with
    | .error e => .error e
    | .ok p =>
      if (acc.lookup v.padstack_id).isSome then .error (.dupPadstack v.padstack_id)
      else convertPadstacksAux c rest ((v.padstack_id, p) :: acc)

/-- `Converter::convert_images` from src/dsn/convert.rs lines 160–167:
same structure over the image library. -/
def convertImagesAux (c : Converter) :
    List DsnImage → List (String × Component) →
      Except ConvErr (List (String × Component))
  | [], acc => .ok acc
  | v :: rest, acc =>
    match c.imageConv v with
    | .error e => .error e
    | .ok img =>
      if (acc.lookup v.image_id).isSome then .error (.dupImage v.image_id)
      else convertImagesAux c rest ((v.image_id, img) :: acc)

/-- `Converter::convert` from src/dsn/convert.rs lines 169–210: set the id,
reject a unit/resolution dimension mismatch, convert padstacks and images
(failing on duplicates), then build the physical structure and nets.  The
`todo!()` in component conversion is the `panicTodo` outcome. -/
def Converter.convert (c : Converter) : Except ConvErr Pcb :=
  let pcb0 := (c.pcb.set_id c.dsn.pcb_id)
  if c.dsn.unit.dimension ≠ c.dsn.resolution.dimension then
    .error .unitMismatch
  else
    let pcb1 := pcb0.set_resolution c.resolutionQ
    (convertPadstacksAux c c.dsn.library.padstacks c.padstacks).bind fun pads =>
    (convertImagesAux c c.dsn.library.images c.images).bind fun _imgs =>
    let pcb2 := c.dsn.structure_.layers.foldl
      (fun (p : Pcb) (v : DsnLayer) => p.add_layer ⟨v.layer_name⟩) pcb1
    (c.dsn.structure_.boundaries.foldlM (fun (p : Pcb) (v : DsnShape) => do
        let s ← c.shapeConv v
        pure (p.add_boundary s)) pcb2).bind fun pcb3 =>
    (c.dsn.structure_.keepouts.foldlM (fun (p : Pcb) (v : DsnKeepout) => do
        let k ← c.keepoutConv v
        pure (p.add_keepout k)) pcb3).bind fun pcb4 =>
    (c.dsn.structure_.vias.foldlM (fun (p : Pcb) (v : String) =>
        (match pads.lookup v with
          | some ps => .ok (p.add_via_padstack ps)
          | none => .error (.unknownPadstack v) : Except ConvErr Pcb)) pcb4).bind fun pcb5 =>
    (c.dsn.placement.components.foldlM (fun (p : Pcb) (v : DsnComponent) => do
        let comp ← c.componentConv v
        pure (p.add_component comp)) pcb5).bind fun pcb6 =>
    .ok (c.dsn.network.nets.foldl
      (fun (p : Pcb) (v : DsnNet) => p.add_net (c.netConv v)) pcb6)

/-- A conversion outcome that is not the modelled `todo!()` panic: the
function either returns `Ok` or returns a genuine `Result` error. -/
def noPanic {α : Type} : Except ConvErr α → Prop
  | .error .panicTodo => False
  | _ => True

theorem noPanic_ok {α : Type} (a : α) : noPanic (Except.ok a) := trivial

theorem noPanic_error {α : Type} {e : ConvErr} (h : e ≠ ConvErr.panicTodo) :
    noPanic (Except.error e : Except ConvErr α) := by
  cases e
  case panicTodo => exact absurd rfl h
  all_goals trivial

theorem error_bind {α β : Type} (e : ConvErr) (f : α → Except ConvErr β) :
    (Except.error e >>= f : Except ConvErr β) = Except.error e := rfl

theorem ok_bind {α β : Type} (a : α) (f : α → Except ConvErr β) :
    (Except.ok a >>= f : Except ConvErr β) = f a := rfl

theorem error_bindE {α β : Type} (e : ConvErr) (f : α → Except ConvErr β) :
    Except.bind (Except.error e : Except ConvErr α) f = (Except.error e : Except ConvErr β) :=
  rfl

theorem ok_bindE {α β : Type} (a : α) (f : α → Except ConvErr β) :
    Except.bind (Except.ok a : Except ConvErr α) f = f a := rfl

theorem noPanic_error_iff {α : Type} (e : ConvErr) :
    noPanic (Except.error e : Except ConvErr α) ↔ e ≠ ConvErr.panicTodo := by
  cases e
  case panicTodo => exact ⟨fun h => absurd h id, fun h => absurd rfl h⟩
  all_goals simp [noPanic]

theorem noPanic_bind {α β : Type} {x : Except ConvErr α} {f : α → Except ConvErr β}
    (hx : noPanic x) (hf : ∀ a, noPanic (f a)) : noPanic (x >>= f) := by
  cases x with
  | error e =>
      rw [error_bind]
      exact (noPanic_error_iff e).mpr ((noPanic_error_iff e).mp hx)
  | ok a => rw [ok_bind]; exact hf a

theorem noPanic_mapM {α β : Type} {f : α → Except ConvErr β}
    (hf : ∀ a, noPanic (f a)) (l : List α) : noPanic (l.mapM f) := by
  induction l with
  | nil => exact noPanic_ok _
  | cons a l ih =>
      rw [List.mapM_cons]
      exact noPanic_bind (hf a) fun b => noPanic_bind ih fun bs => noPanic_ok _

theorem noPanic_i64 (c : Converter) (v : Decimal) : noPanic (c.i64 v) := by
  unfold Converter.i64
  dsimp only
  split
  · exact noPanic_ok _
  · exact noPanic_error (by simp)

theorem noPanic_u64 (c : Converter) (v : Decimal) : noPanic (c.u64 v) := by
  unfold Converter.u64
  dsimp only
  split
  · exact noPanic_ok _
  · exact noPanic_error (by simp)

theorem noPanic_ptConv (c : Converter) (v : PtF) : noPanic (c.ptConv v) := by
  unfold Converter.ptConv
  exact noPanic_bind (noPanic_i64 c _) fun _ =>
    noPanic_bind (noPanic_i64 c _) fun _ => noPanic_ok _

theorem noPanic_rectConv (c : Converter) (v : DsnRect) : noPanic (c.rectConv v) := by
  unfold Converter.rectConv
  exact noPanic_bind (noPanic_i64 c _) fun _ =>
    noPanic_bind (noPanic_i64 c _) fun _ =>
      noPanic_bind (noPanic_i64 c _) fun _ =>
        noPanic_bind (noPanic_i64 c _) fun _ => noPanic_ok _

theorem noPanic_shapeConv (c : Converter) (v : DsnShape) : noPanic (c.shapeConv v) := by
  cases v with
  | rect v =>
      exact noPanic_bind (noPanic_rectConv c _) fun _ => noPanic_ok _
  | circle v =>
      exact noPanic_bind (noPanic_u64 c _) fun _ =>
        noPanic_bind (noPanic_ptConv c _) fun _ => noPanic_ok _
  | polygon v =>
      exact noPanic_bind (noPanic_u64 c _) fun _ =>
        noPanic_bind (noPanic_mapM (noPanic_ptConv c) _) fun _ => noPanic_ok _
  | path v =>
      exact noPanic_bind (noPanic_u64 c _) fun _ =>
        noPanic_bind (noPanic_mapM (noPanic_ptConv c) _) fun _ => noPanic_ok _
  | qarc v =>
      exact noPanic_bind (noPanic_u64 c _) fun _ =>
        noPanic_bind (noPanic_ptConv c _) fun _ =>
          noPanic_bind (noPanic_ptConv c _) fun _ =>
            noPanic_bind (noPanic_ptConv c _) fun _ => noPanic_ok _

theorem noPanic_padstackConv (c : Converter) (v : DsnPadstack) :
    noPanic (c.padstackConv v) := by
  unfold Converter.padstackConv
  exact noPanic_bind
    (noPanic_mapM (fun (s : DsnPadstackShape) => noPanic_shapeConv c s.shape) _)
    fun _ => noPanic_ok _

theorem noPanic_padstacksAux (c : Converter) (ps : List DsnPadstack) :
    ∀ acc, noPanic (convertPadstacksAux c ps acc) := by
  induction ps with
  | nil => intro acc; exact noPanic_ok _
  | cons v rest ih =>
      intro acc
      unfold convertPadstacksAux
      cases hp : c.padstackConv v with
      | error e =>
          dsimp only
          have hnp := noPanic_padstackConv c v
          rw [hp] at hnp
          exact (noPanic_error_iff e).mpr ((noPanic_error_iff e).mp hnp)
      | ok p =>
          dsimp only
          split
          · exact noPanic_error (by simp)
          · exact ih _

theorem lookup_cons_isSome {β : Type} (s k : String) (x : β) (acc : List (String × β)) :
    ((((k, x) :: acc).lookup s).isSome) ↔ (s = k ∨ (acc.lookup s).isSome) := by
  show ((match s == k with
        | true => some x
        | false => acc.lookup s).isSome : Prop) ↔ _
  by_cases h : s = k
  · rw [show (s == k) = true from beq_iff_eq.mpr h]
    simp [h]
  · rw [show (s == k) = false from beq_eq_false_iff_ne.mpr h]
    simp [h]

/-- A duplicate padstack id in the remaining input (or an id already present
in the accumulated map) makes `convert_padstacks` fail with a non-panic
error. -/
theorem padstacksAux_dup (c : Converter) (ps : List DsnPadstack) :
    ∀ acc : List (String × Padstack),
      (¬(ps.map DsnPadstack.padstack_id).Nodup ∨
        ∃ s : String, s ∈ ps.map DsnPadstack.padstack_id ∧ (acc.lookup s).isSome) →
      ∃ e, convertPadstacksAux c ps acc = .error e ∧ e ≠ ConvErr.panicTodo := by
  induction ps with
  | nil =>
      intro acc h
      rcases h with h | ⟨s, hs, _⟩
      · simp at h
      · simp at hs
  | cons v rest ih =>
      intro acc h
      unfold convertPadstacksAux
      cases hp : c.padstackConv v with
      | error e =>
          refine ⟨e, rfl, ?_⟩
          have hnp := noPanic_padstackConv c v
          rw [hp] at hnp
          intro he
          rw [he] at hnp
          exact hnp
      | ok p =>
          dsimp only
          by_cases hl : ((acc.lookup v.padstack_id).isSome : Prop)
          · rw [if_pos hl]
            exact ⟨_, rfl, by simp⟩
          · rw [if_neg hl]
            apply ih
            rcases h with hnd | ⟨s, hs, hsl⟩
            · rw [List.map_cons, List.nodup_cons] at hnd
              by_cases hmem : v.padstack_id ∈ rest.map DsnPadstack.padstack_id
              · right
                exact ⟨v.padstack_id, hmem,
                  (lookup_cons_isSome _ _ _ _).mpr (Or.inl rfl)⟩
              · left
                intro hnd2
                exact hnd ⟨hmem, hnd2⟩
            · rw [List.map_cons] at hs
              rcases List.mem_cons.mp hs with rfl | hmem
              · exact absurd hsl hl
              · right
                exact ⟨s, hmem, (lookup_cons_isSome _ _ _ _).mpr (Or.inr hsl)⟩

/-- A duplicate image id makes `convert_images` fail with a non-panic
error. -/
theorem imagesAux_dup (c : Converter) (l : List DsnImage) :
    ∀ acc : List (String × Component),
      (¬(l.map DsnImage.image_id).Nodup ∨
        ∃ s : String, s ∈ l.map DsnImage.image_id ∧ (acc.lookup s).isSome) →
      ∃ e, convertImagesAux c l acc = .error e ∧ e ≠ ConvErr.panicTodo := by
  induction l with
  | nil =>
      intro acc h
      rcases h with h | ⟨s, hs, _⟩
      · simp at h
      · simp at hs
  | cons v rest ih =>
      intro acc h
      unfold convertImagesAux
      dsimp only [Converter.imageConv]
      by_cases hl : ((acc.lookup v.image_id).isSome : Prop)
      · rw [if_pos hl]
        exact ⟨_, rfl, by simp⟩
      · rw [if_neg hl]
        apply ih
        rcases h with hnd | ⟨s, hs, hsl⟩
        · rw [List.map_cons, List.nodup_cons] at hnd
          by_cases hmem : v.image_id ∈ rest.map DsnImage.image_id
          · right
            exact ⟨v.image_id, hmem, (lookup_cons_isSome _ _ _ _).mpr (Or.inl rfl)⟩
          · left
            intro hnd2
            exact hnd ⟨hmem, hnd2⟩
        · rw [List.map_cons] at hs
          rcases List.mem_cons.mp hs with rfl | hmem
          · exact absurd hsl hl
          · right
            exact ⟨s, hmem, (lookup_cons_isSome _ _ _ _).mpr (Or.inr hsl)⟩

end Dsn

/-! ### Theorems -/

set_option maxHeartbeats 3000000 in
/-- C4: `seg_intersects_seg` returns the expected result on each of the
spec's seed segment–segment cases under all four endpoint-orientation
permutations: crossing (1,1)-(3,4) vs (2,4)-(3,1) is true; shared endpoint
non-parallel (1,1)-(2,3) vs (2,3)-(4,1) is true; collinear overlap
(1,1)-(3,1) vs (2,1)-(4,1) is true; point-on-segment (1,1)-(3,1) vs
(2,1)-(2,1) is true; disjoint parallel (1,3)-(3,1) vs (2,4)-(4,2) is false;
disjoint points (1,1)-(1,1) vs (2,1)-(2,1) is false. -/
theorem seg_seg_seed_cases :
    segSegAllPerms (seg ⟨1, 1⟩ ⟨3, 4⟩) (seg ⟨2, 4⟩ ⟨3, 1⟩) True ∧
    segSegAllPerms (seg ⟨1, 1⟩ ⟨2, 3⟩) (seg ⟨2, 3⟩ ⟨4, 1⟩) True ∧
    segSegAllPerms (seg ⟨1, 1⟩ ⟨3, 1⟩) (seg ⟨2, 1⟩ ⟨4, 1⟩) True ∧
    segSegAllPerms (seg ⟨1, 1⟩ ⟨3, 1⟩) (seg ⟨2, 1⟩ ⟨2, 1⟩) True ∧
    segSegAllPerms (seg ⟨1, 3⟩ ⟨3, 1⟩) (seg ⟨2, 4⟩ ⟨4, 2⟩) False ∧
    segSegAllPerms (seg ⟨1, 1⟩ ⟨1, 1⟩) (seg ⟨2, 1⟩ ⟨2, 1⟩) False := by
  unfold segSegAllPerms
  simp only [iff_true, iff_false]
  refine ⟨⟨?_, ?_, ?_, ?_⟩, ⟨?_, ?_, ?_, ?_⟩, ⟨?_, ?_, ?_, ?_⟩, ⟨?_, ?_, ?_, ?_⟩,
    ⟨?_, ?_, ?_, ?_⟩, ⟨?_, ?_, ?_, ?_⟩⟩ <;>
  · norm_num [seg_intersects_seg, orientation, sgnEps, Segment.line, line, seg,
      Pt.cross, Rt.enclosing, Rt.containsPt, EP, f64_eq, f64_le]

theorem f64_eq_comm (a b : ℚ) : f64_eq a b ↔ f64_eq b a := by
  unfold f64_eq; exact And.comm

theorem f64_eq_neg (a b : ℚ) : f64_eq (-a) (-b) ↔ f64_eq a b := by
  unfold f64_eq
  constructor <;> rintro ⟨h1, h2⟩ <;> exact ⟨by linarith, by linarith⟩

theorem f64_le_neg (a b : ℚ) : f64_le (-a) (-b) ↔ f64_le b a := by
  unfold f64_le
  rw [f64_eq_neg, f64_eq_comm, neg_lt_neg_iff]

theorem f64_eq_zero_neg (c : ℚ) : f64_eq (-c) 0 ↔ f64_eq c 0 := by
  have h := f64_eq_neg c 0
  rwa [neg_zero] at h

theorem sgnEps_neg (c : ℚ) : sgnEps (-c) = -sgnEps c := by
  unfold sgnEps
  by_cases h : f64_eq c 0
  · rw [if_pos ((f64_eq_zero_neg c).mpr h), if_pos h, neg_zero]
  · have hc0 : c ≠ 0 := by
      intro hc
      exact h (hc ▸ ⟨by norm_num [EP], by norm_num [EP]⟩)
    rw [if_neg (fun hc => h ((f64_eq_zero_neg c).mp hc)), if_neg h]
    rcases lt_or_gt_of_ne hc0 with hlt | hgt
    · rw [if_pos (by linarith), if_neg (by linarith)]; norm_num
    · rw [if_neg (by linarith), if_pos hgt]

/-- Reversing the two defining points of a line negates every orientation. -/
theorem orientation_line_swap (a b p : Pt) :
    orientation (line b a) p = -orientation (line a b) p := by
  show sgnEps ((a - b).cross (p - b)) = -sgnEps ((b - a).cross (p - a))
  have h : (a - b).cross (p - b) = -((b - a).cross (p - a)) := by
    simp only [Pt.cross, Pt.sub_x, Pt.sub_y]; ring
  rw [h, sgnEps_neg]

/-- An orientation computed against the base point of the line equals the one
computed against the other defining point (shift along the line). -/
theorem orientation_line_base (a b p : Pt) :
    sgnEps ((b - a).cross (p - b)) = sgnEps ((b - a).cross (p - a)) := by
  have h : (b - a).cross (p - b) = (b - a).cross (p - a) := by
    simp only [Pt.cross, Pt.sub_x, Pt.sub_y]; ring
  rw [h]

/-- Negating all coordinates leaves every orientation unchanged. -/
theorem orientation_neg (a b p : Pt) :
    orientation (line (-a) (-b)) (-p) = orientation (line a b) p := by
  show sgnEps ((-b - -a).cross (-p - -a)) = sgnEps ((b - a).cross (p - a))
  have h : (-b - -a).cross (-p - -a) = (b - a).cross (p - a) := by
    simp only [Pt.cross, Pt.sub_x, Pt.sub_y, Pt.neg_x, Pt.neg_y]; ring
  rw [h]

theorem Rt.enclosing_comm (a b : Pt) : Rt.enclosing a b = Rt.enclosing b a := by
  simp only [Rt.enclosing, min_comm, max_comm]

/-- Negating all coordinates commutes with the enclosing-rectangle
point-containment test. -/
theorem enclosing_neg_contains (u v p : Pt) :
    (Rt.enclosing (-u) (-v)).containsPt (-p) ↔ (Rt.enclosing u v).containsPt p := by
  unfold Rt.enclosing Rt.containsPt
  simp only [Pt.neg_x, Pt.neg_y, min_neg_neg, max_neg_neg, f64_le_neg]
  tauto

/-- C5: `seg_intersects_seg` is symmetric in its two arguments, invariant
under reversing the endpoints of either segment, and invariant under negating
all coordinates of both segments. -/
theorem seg_seg_invariances :
    (∀ a b : Segment, seg_intersects_seg a b ↔ seg_intersects_seg b a) ∧
    (∀ a b : Segment, seg_intersects_seg (seg a.en a.st) b ↔ seg_intersects_seg a b) ∧
    (∀ a b : Segment, seg_intersects_seg a (seg b.en b.st) ↔ seg_intersects_seg a b) ∧
    (∀ a b : Segment,
      seg_intersects_seg (seg (-a.st) (-a.en)) (seg (-b.st) (-b.en)) ↔
        seg_intersects_seg a b) := by
  have hsymm : ∀ a b : Segment, seg_intersects_seg a b ↔ seg_intersects_seg b a := by
    intro a b
    unfold seg_intersects_seg
    tauto
  have hrev : ∀ a b : Segment,
      seg_intersects_seg (seg a.en a.st) b ↔ seg_intersects_seg a b := by
    intro a b
    unfold seg_intersects_seg
    simp only [Segment.line, seg]
    simp only [orientation_line_swap a.st a.en, Rt.enclosing_comm a.en a.st,
      ne_eq, neg_inj, neg_eq_zero, ne_comm]
    tauto
  refine ⟨hsymm, hrev, ?_, ?_⟩
  · intro a b
    rw [hsymm, hrev, hsymm]
  · intro a b
    unfold seg_intersects_seg
    simp only [Segment.line, seg]
    simp only [orientation_neg, enclosing_neg_contains]

/-- C10: `line_intersects_line` returns true iff the cross product of the two
direction vectors is non-zero within the tolerance ε; in particular the same
infinite line given twice is reported as not intersecting. -/
theorem line_line_parallel_only :
    (∀ a b : Line, line_intersects_line a b ↔ f64_ne (a.dir.cross b.dir) 0) ∧
    (∀ l : Line, ¬line_intersects_line l l) := by
  refine ⟨fun a b => Iff.rfl, fun l h => h ?_⟩
  have hc : l.dir.cross l.dir = 0 := by simp [Pt.cross, mul_comm]
  rw [hc]
  norm_num [f64_eq, EP]

/-- C7 (amended): `rt_intersects_tri` returns false iff some one of the seven
candidate lines — the three triangle edge lines and the four rectangle edge
lines — has all vertices of the other shape strictly (beyond ε) on one side,
and returns true otherwise. -/
theorem rt_tri_seven_axes (a : Rt) (b : Tri) :
    ¬rt_intersects_tri a b ↔
      pts_same_side (line b.a b.b) a.pts ∨
      pts_same_side (line b.b b.c) a.pts ∨
      pts_same_side (line b.c b.a) a.pts ∨
      pts_same_side (line ⟨a.x0, a.y0⟩ ⟨a.x0, a.y1⟩) b.pts ∨
      pts_same_side (line ⟨a.x0, a.y1⟩ ⟨a.x1, a.y1⟩) b.pts ∨
      pts_same_side (line ⟨a.x1, a.y1⟩ ⟨a.x1, a.y0⟩) b.pts ∨
      pts_same_side (line ⟨a.x1, a.y0⟩ ⟨a.x0, a.y0⟩) b.pts := by
  simp only [rt_intersects_tri, not_and_or, not_not]

/-- C7 (counterexample): the separating-axis value does not equal the
reference definition of rectangle–triangle intersection: the rectangle
[4,5]×[4,5] lies strictly inside the triangle ((0,0), (100,0), (0,100)) — so
the two shapes intersect in the reference sense — yet `rt_intersects_tri`
returns false, because the triangle edge line through (0,0) and (100,0) has
all four rectangle corners strictly on one side. -/
theorem rt_tri_not_reference :
    ¬rt_intersects_tri ⟨4, 4, 5, 5⟩ ⟨⟨0, 0⟩, ⟨100, 0⟩, ⟨0, 100⟩⟩ ∧
    rtTriIntersectsRef ⟨4, 4, 5, 5⟩ ⟨⟨0, 0⟩, ⟨100, 0⟩, ⟨0, 100⟩⟩ := by
  constructor
  · intro h
    apply h.1
    left
    intro p hp
    simp only [Rt.pts, List.mem_cons, List.mem_singleton, List.not_mem_nil, or_false] at hp
    rcases hp with rfl | rfl | rfl | rfl <;>
      norm_num [orientation, line, sgnEps, Pt.cross, f64_eq, EP]
  · refine ⟨⟨4, 4⟩, ?_, 92/100, 4/100, 4/100, ?_, ?_, ?_, ?_, ?_, ?_⟩ <;>
      norm_num [Rt.memRef]

/-- C6: `RouteResult::merge` is associative, the merged `failed` flag is the
OR of the inputs' flags, and merging an empty (default) `RouteResult` into
`r` leaves `r` unchanged. -/
theorem route_result_merge_laws :
    (∀ r1 r2 r3 : RouteResult, (r1.merge r2).merge r3 = r1.merge (r2.merge r3)) ∧
    (∀ r1 r2 : RouteResult, (r1.merge r2).failed = (r1.failed || r2.failed)) ∧
    (∀ r : RouteResult, r.merge emptyRouteResult = r) := by
  refine ⟨?_, fun _ _ => rfl, ?_⟩
  · intro r1 r2 r3
    simp [RouteResult.merge, List.append_assoc, Bool.or_assoc]
  · intro r
    cases r
    simp [RouteResult.merge, emptyRouteResult]

/-- A result with a single wire of length 1 and no vias. -/
def rShortWire : RouteResult := { wires := [⟨0, ⟨[⟨0, 0⟩, ⟨1, 0⟩], 1/2⟩, 0⟩] }

/-- A result with a single wire of length 2 and no vias. -/
def rLongWire : RouteResult := { wires := [⟨0, ⟨[⟨0, 0⟩, ⟨2, 0⟩], 1/2⟩, 0⟩] }

/-- C3 (counterexample): the fitness of `Router::fitness` is not strictly
decreasing in the spec's total cost `K_fail·(#failed) + K_via·(#vias) +
K_len·(length)`: these two results have equal failed flags, equal via
counts, and total wire lengths 1 and 2 — so for any positive `K_len` their
claimed costs differ — yet their fitness values are equal, because the code
never counts wire length. -/
theorem fitness_ignores_wire_length :
    fitness rShortWire = fitness rLongWire ∧
    totalWireLen rShortWire = 1 ∧ totalWireLen rLongWire = 2 ∧
    rShortWire.failed = rLongWire.failed ∧
    rShortWire.vias.length = rLongWire.vias.length := by
  refine ⟨rfl, ?_, ?_, rfl, rfl⟩
  · show polylineLen [⟨0, 0⟩, ⟨1, 0⟩] + 0 = 1
    simp only [polylineLen, Pt.dist]
    push_cast
    norm_num
  · show polylineLen [⟨0, 0⟩, ⟨2, 0⟩] + 0 = 2
    simp only [polylineLen, Pt.dist]
    push_cast
    norm_num
    rw [show ((4 : ℝ)) = 2 ^ 2 by norm_num, Real.sqrt_sq (by norm_num : (0:ℝ) ≤ 2)]

/-- C3 (amended): `Router::fitness` equals `1 / (1 + cost)` for
`cost = 1000·[failed] + 10·(#vias)` (wire length is not part of the cost),
and it is strictly decreasing in that cost. -/
theorem fitness_strict_anti (r1 r2 : RouteResult) (h : routeCost r1 < routeCost r2) :
    fitness r2 < fitness r1 ∧ fitness r1 = 1 / (1 + routeCost r1) := by
  have h1 : (0 : ℚ) ≤ routeCost r1 := by
    unfold routeCost
    split_ifs <;> positivity
  refine ⟨?_, rfl⟩
  unfold fitness
  exact one_div_lt_one_div_of_lt (by linarith) (by linarith)

/-- Witness for `fitness_strict_anti` at the empty result and a one-via
result. -/
theorem fitness_strict_anti_witness :
    routeCost emptyRouteResult < routeCost { vias := [⟨⟨0, 0⟩, "via", 0⟩] } ∧
    fitness { vias := [⟨⟨0, 0⟩, "via", 0⟩] } < fitness emptyRouteResult := by
  have h : routeCost emptyRouteResult < routeCost { vias := [⟨⟨0, 0⟩, "via", 0⟩] } := by
    norm_num [routeCost, emptyRouteResult]
  exact ⟨h, (fitness_strict_anti emptyRouteResult { vias := [⟨⟨0, 0⟩, "via", 0⟩] } h).1⟩

/-- C1: the distance functions do not return 0 on intersecting or containing
inputs, contradicting the module comment of src/model/geom/distance.rs
("Distance functions should return 0 if there is intersection or
containment"): the unit circle centred at the origin is contained in (and so
intersects — `circ_intersect_rt` holds) the rectangle [−2,2]×[−2,2], yet
`circ_rt_dist` returns −1, a negative value instead of 0. -/
theorem circ_rt_dist_negative_inside :
    circ_intersect_rt ⟨⟨0, 0⟩, 1⟩ ⟨-2, -2, 2, 2⟩ ∧
    circ_rt_dist ⟨⟨0, 0⟩, 1⟩ ⟨-2, -2, 2, 2⟩ = -1 := by
  constructor
  · left
    norm_num [Rt.containsPt, f64_le, f64_eq, EP]
  · unfold circ_rt_dist
    have hc : Pt.clamp ⟨0, 0⟩ ⟨-2, -2, 2, 2⟩ = ⟨0, 0⟩ := by
      simp only [Pt.clamp, Pt.mk.injEq]
      norm_num
    rw [hc]
    unfold Pt.dist
    norm_num

/-- C2 (counterexample): the kernel is not total — `rt_path_dist` has no
defined result on any input (its body is `todo!()`), and `Shape::intersects`
has no defined result on a circle–circle pair. -/
theorem kernel_not_total :
    rt_path_dist ⟨0, 0, 1, 1⟩ ⟨[⟨0, 0⟩, ⟨1, 0⟩], 1⟩ = none ∧
    Shape.intersects (.circle ⟨⟨0, 0⟩, 1⟩) (.circle ⟨⟨0, 0⟩, 1⟩) = none :=
  ⟨rfl, rfl⟩

/-- C2 (amended): `Shape::intersects` returns a defined result exactly on
the (Rect, Polygon) and (Polygon, Rect) pairs; every other pair panics, as
do `rt_path_dist`, `rt_intersects_seg` and `line_intersects_seg` on all
inputs. -/
theorem kernel_domain :
    (∀ s1 s2 : Shape, (Shape.intersects s1 s2).isSome ↔
      ((∃ a b, s1 = .rect a ∧ s2 = .polygon b) ∨
        (∃ a b, s1 = .polygon a ∧ s2 = .rect b))) ∧
    (∀ (a : Rt) (b : Path), rt_path_dist a b = none) ∧
    (∀ (a : Rt) (b : Segment), rt_intersects_seg a b = none) ∧
    (∀ (a : Line) (b : Segment), line_intersects_seg a b = none) := by
  refine ⟨?_, fun _ _ => rfl, fun _ _ => rfl, fun _ _ => rfl⟩
  intro s1 s2
  cases s1 <;> cases s2 <;> simp [Shape.intersects]

/-- C9: `Router::rand_net_order` returns the board's net ids in ascending
sorted order and performs no randomization: the output is a sorted
permutation of the net-id list, and any two boards with the same net-id
list (in particular, two calls on the same board) get the identical
ordering, so routing driven by this order is a function of the board
alone. -/
theorem rand_net_order_sorted_deterministic (pcb pcb' : Pcb)
    (h : pcb.nets.map Net.id = pcb'.nets.map Net.id) :
    (rand_net_order pcb).Sorted (· ≤ ·) ∧
    (rand_net_order pcb).Perm (pcb.nets.map Net.id) ∧
    rand_net_order pcb = rand_net_order pcb' := by
  refine ⟨List.sorted_insertionSort _ _, List.perm_insertionSort _ _, ?_⟩
  unfold rand_net_order
  rw [h]

/-- Witness for `rand_net_order_sorted_deterministic` on a two-net board. -/
theorem rand_net_order_witness :
    (rand_net_order ⟨[⟨2, []⟩, ⟨1, []⟩]⟩).Sorted (· ≤ ·) ∧
    (rand_net_order ⟨[⟨2, []⟩, ⟨1, []⟩]⟩).Perm
      ((⟨[⟨2, []⟩, ⟨1, []⟩]⟩ : Pcb).nets.map Net.id) ∧
    rand_net_order ⟨[⟨2, []⟩, ⟨1, []⟩]⟩ = rand_net_order ⟨[⟨2, []⟩, ⟨1, []⟩]⟩ :=
  rand_net_order_sorted_deterministic ⟨[⟨2, []⟩, ⟨1, []⟩]⟩ ⟨[⟨2, []⟩, ⟨1, []⟩]⟩ rfl

/-- C8: board conversion fails fatally on duplicate ids: whenever the input
contains two padstacks with the same id or two images with the same id,
`Converter::convert` returns an error (a genuine `Result` error, not the
component-conversion panic) and produces no `Pcb`. -/
theorem convert_duplicate_ids_error (d : Dsn.DsnPcb)
    (h : ¬(d.library.padstacks.map Dsn.DsnPadstack.padstack_id).Nodup ∨
         ¬(d.library.images.map Dsn.DsnImage.image_id).Nodup) :
    ∃ e, (Dsn.Converter.new d).convert = Except.error e ∧
      e ≠ Dsn.ConvErr.panicTodo := by
  by_cases hu : d.unit.dimension = d.resolution.dimension
  · have hcond : ¬((Dsn.Converter.new d).dsn.unit.dimension ≠
        (Dsn.Converter.new d).dsn.resolution.dimension) := fun hne => hne hu
    rcases h with hp | hi
    · obtain ⟨e, he, hne⟩ :=
        Dsn.padstacksAux_dup (Dsn.Converter.new d) d.library.padstacks [] (Or.inl hp)
      refine ⟨e, ?_, hne⟩
      unfold Dsn.Converter.convert
      rw [if_neg hcond]
      dsimp only [Dsn.Converter.new] at he ⊢
      rw [he]
      rfl
    · cases hps : Dsn.convertPadstacksAux (Dsn.Converter.new d) d.library.padstacks [] with
      | error e =>
          have hnp := Dsn.noPanic_padstacksAux (Dsn.Converter.new d) d.library.padstacks []
          rw [hps] at hnp
          refine ⟨e, ?_, (Dsn.noPanic_error_iff e).mp hnp⟩
          unfold Dsn.Converter.convert
          rw [if_neg hcond]
          dsimp only [Dsn.Converter.new] at hps ⊢
          rw [hps]
          rfl
      | ok pads =>
          obtain ⟨e, he, hne⟩ :=
            Dsn.imagesAux_dup (Dsn.Converter.new d) d.library.images [] (Or.inl hi)
          refine ⟨e, ?_, hne⟩
          unfold Dsn.Converter.convert
          rw [if_neg hcond]
          dsimp only [Dsn.Converter.new] at hps he ⊢
          rw [hps]
          simp only [Dsn.ok_bindE]
          rw [he]
          rfl
  · have hcond : (Dsn.Converter.new d).dsn.unit.dimension ≠
        (Dsn.Converter.new d).dsn.resolution.dimension := hu
    refine ⟨Dsn.ConvErr.unitMismatch, ?_, by simp⟩
    unfold Dsn.Converter.convert
    rw [if_pos hcond]

/-- A DSN input whose padstack library holds two padstacks with id "a". -/
def dupPadstackInput : Dsn.DsnPcb :=
  { pcb_id := "brd"
    resolution := ⟨Dsn.DimensionUnit.mm, 10⟩
    unit := ⟨Dsn.DimensionUnit.mm⟩
    library := { padstacks := [⟨"a", [], false⟩, ⟨"a", [], false⟩], images := [] } }

/-- Witness for `convert_duplicate_ids_error` on `dupPadstackInput`. -/
theorem convert_duplicate_ids_error_witness :
    (¬(dupPadstackInput.library.padstacks.map Dsn.DsnPadstack.padstack_id).Nodup ∨
      ¬(dupPadstackInput.library.images.map Dsn.DsnImage.image_id).Nodup) ∧
    ∃ e, (Dsn.Converter.new dupPadstackInput).convert = Except.error e ∧
      e ≠ Dsn.ConvErr.panicTodo :=
  ⟨Or.inl (by simp [dupPadstackInput]),
    convert_duplicate_ids_error dupPadstackInput (Or.inl (by simp [dupPadstackInput]))⟩

end Memeroute
